import Mathlib

/-!
Shallow embedding of the nudge-rs timestamp-update library.

The embedding follows the source files:
- `src/lib.rs` — the public `Builder` and `CreationTarget` types;
- `src/sys/posix.rs` — the POSIX backend (timestamp conversion, the
  `FileHandle::open` descriptor check, the C-string conversion, and the
  `Touch` impls for each `TouchOptions` policy combination);
- `src/sys/windows.rs` — the Windows backend (FILETIME conversion and the
  `Touch` impls for each policy combination).

Syscall outcomes are abstracted into environment records (`PosixEnv`,
`WinEnv`): each field records the result the operating system would return
for the corresponding primitive.  The `touch` dispatch functions are then
translated statement-by-statement from the Rust impls, and additionally
return the trace of primitive actions they attempted, in order, so that
claims about which operations run (and in what order) are expressible.
-/

/-- Error kinds distinguished by the library (`std::io::ErrorKind`); the
policy layer only ever branches on `NotFound` versus the rest. -/
inductive ErrorKind
  | notFound
  | permissionDenied
  | other (code : Int)
deriving DecidableEq, Repr

/-- Result of one I/O operation, mirroring Rust's `io::Result<()>`. -/
abbrev IoResult := Except ErrorKind Unit

/-- The symlink-resolution policy tags (`resolution_method` module):
`FollowSymlinks` operates on a link's target, `UpdateSymlinks` on the link
itself. -/
inductive ResolutionMethod
  | followSymlinks
  | updateSymlinks
deriving DecidableEq, Repr

/-- The item-kind tags from `src/item.rs` (`File` and `Directory`). -/
inductive Item
  | file
  | directory
deriving DecidableEq, Repr

/-- `CreationTarget` from `src/lib.rs`: what to create if a path does not
exist. -/
inductive CreationTarget
  | none
  | file
deriving DecidableEq, Repr

/-- `CreationTarget::default()` from `src/lib.rs` (`impl Default`). -/
def CreationTarget.default : CreationTarget := CreationTarget.none

/-- A point in time, measured in (signed) nanoseconds relative to the Unix
epoch; this models Rust's `SystemTime`, whose only observable use in the
source is `duration_since(UNIX_EPOCH)`. -/
abbrev SystemTime := Int

/-- `Builder` from `src/lib.rs`: two independently optional timestamps plus
the symlink and creation options. -/
structure Builder where
  accessed : Option SystemTime
  modified : Option SystemTime
  follow_symlinks : Bool
  creation_target : CreationTarget
deriving DecidableEq, Repr

/-- `Builder::new()` from `src/lib.rs` lines 72-79. -/
def Builder.new : Builder :=
  { accessed := Option.none
  , modified := Option.none
  , follow_symlinks := false
  , creation_target := CreationTarget.default }

/-- Nanoseconds per second; Rust `Duration` stores `(secs, nanos)` with
`nanos < 1000000000`. -/
def nsPerSec : Nat := 1000000000

/-- Interprets a natural number as the value of the Rust cast
`as i64` (two's-complement wrap into the signed 64-bit range); used for
`as time_t` and `as c_long` on 64-bit POSIX targets. -/
def wrapI64 (n : Nat) : Int :=
  if n % 2 ^ 64 < 2 ^ 63 then ((n % 2 ^ 64 : Nat) : Int)
  else ((n % 2 ^ 64 : Nat) : Int) - 2 ^ 64

/-- The C `struct timespec`, as used through `libc::timespec`. -/
structure Timespec where
  tv_sec : Int
  tv_nsec : Int
deriving DecidableEq, Repr

/-- `libc::UTIME_OMIT` (Linux: `(1 << 30) - 2`): the sentinel nanosecond
value telling `utimensat`/`futimens` to leave that timestamp unchanged. -/
def UTIME_OMIT : Int := 1073741822

/-- `libc::AT_SYMLINK_NOFOLLOW` (Linux: `0x100`). -/
def AT_SYMLINK_NOFOLLOW : Int := 256

/-- `FileTimes::systemtime_into_filetime` from `src/sys/posix.rs` lines
144-162: a present time at or after the Unix epoch becomes
`(secs, subsec_nanos)`; a present time before it becomes the negations of
the backwards duration's components; an absent time becomes the
`UTIME_OMIT` sentinel. -/
def Posix.systemtime_into_filetime (time : Option SystemTime) : Timespec :=
  match time with
  | Option.some t =>
    if 0 ≤ t then
      { tv_sec := wrapI64 (t.toNat / nsPerSec)
      , tv_nsec := ((t.toNat % nsPerSec : Nat) : Int) }
    else
      { tv_sec := -(wrapI64 ((-t).toNat / nsPerSec))
      , tv_nsec := -(((-t).toNat % nsPerSec : Nat) : Int) }
  | Option.none => { tv_sec := 0, tv_nsec := UTIME_OMIT }

/-- `FileTimes::from_builder` from `src/sys/posix.rs` lines 128-133: the
pair is `[accessed, modified]` in that order. -/
def Posix.FileTimes.from_builder (b : Builder) : Timespec × Timespec :=
  (Posix.systemtime_into_filetime b.accessed, Posix.systemtime_into_filetime b.modified)

/-- The Windows `FILETIME` structure: two unsigned 32-bit halves of a
64-bit count of 100-nanosecond ticks since 1601-01-01. -/
structure FILETIME where
  dwLowDateTime : Nat
  dwHighDateTime : Nat
deriving DecidableEq, Repr

/-- Total nanoseconds held by a Rust `Duration` modelled as a
`(secs, subsec_nanos)` pair. -/
def durToNanos (d : Nat × Nat) : Nat := d.1 * nsPerSec + d.2

/-- Rust `Duration` addition (normalising the nanosecond carry). -/
def durAdd (a b : Nat × Nat) : Nat × Nat :=
  ((durToNanos a + durToNanos b) / nsPerSec, (durToNanos a + durToNanos b) % nsPerSec)

/-- Rust `Duration` subtraction: `a - b` panics when `b > a`, which is
modelled as `Option.none`. -/
def durSub (a b : Nat × Nat) : Option (Nat × Nat) :=
  if durToNanos b ≤ durToNanos a then
    Option.some ((durToNanos a - durToNanos b) / nsPerSec, (durToNanos a - durToNanos b) % nsPerSec)
  else
    Option.none

/-- The fixed offset between the Windows epoch (1601-01-01) and the Unix
epoch, in seconds (`Duration::from_secs(11644473600)` in the source). -/
def Windows.unix_epoch_secs : Nat := 11644473600

/-- `FileTimes::systemtime_into_filetime` from `src/sys/windows.rs` lines
116-136.  A present time is shifted onto the Windows epoch (`d +
unix_epoch` after the epoch, `unix_epoch - e.duration()` before it — the
latter subtraction panics for times before 1601, modelled as
`Option.none`), scaled to 100-nanosecond ticks with truncating division
and wrapping 64-bit arithmetic, and split into the two `DWORD` halves.  An
absent time becomes the all-ones sentinel. -/
def Windows.systemtime_into_filetime (time : Option SystemTime) : Option FILETIME :=
  match time with
  | Option.some t =>
    let dur :=
      if 0 ≤ t then
        Option.some (durAdd (t.toNat / nsPerSec, t.toNat % nsPerSec) (Windows.unix_epoch_secs, 0))
      else
        durSub (Windows.unix_epoch_secs, 0) ((-t).toNat / nsPerSec, (-t).toNat % nsPerSec)
    match dur with
    | Option.some d =>
      let nanos := (d.1 * 10000000 + d.2 / 100) % 2 ^ 64
      Option.some { dwLowDateTime := nanos % 2 ^ 32, dwHighDateTime := nanos / 2 ^ 32 % 2 ^ 32 }
    | Option.none => Option.none
  | Option.none =>
    Option.some { dwLowDateTime := 0xFFFFFFFF, dwHighDateTime := 0xFFFFFFFF }

/-- `FileTimes::from_builder` from `src/sys/windows.rs` lines 95-100
(`accessed` first, `modified` second); the `Option` records whether the
conversion panics. -/
def Windows.FileTimes.from_builder (b : Builder) : Option FILETIME × Option FILETIME :=
  (Windows.systemtime_into_filetime b.accessed, Windows.systemtime_into_filetime b.modified)

/-- `into_c_string` interprets a byte as the value of the Rust cast
`as c_char` (`i8` two's-complement reinterpretation). -/
def c_char_of (b : Nat) : Int :=
  if b % 256 < 128 then ((b % 256 : Nat) : Int) else ((b % 256 : Nat) : Int) - 256

/-- `into_c_string` from `src/sys/posix.rs` lines 35-43: maps each path
byte through the `c_char` cast and chains a single terminating 0; no
inspection of the bytes themselves takes place. -/
def Posix.into_c_string (path : List Nat) : List Int :=
  (path.map c_char_of) ++ [0]

/-- The portion of a NUL-terminated buffer that a C string function
actually reads: everything up to (excluding) the first 0. -/
def cStringSeenBySyscall (s : List Int) : List Int :=
  s.takeWhile (fun c => c != 0)

/-- The descriptor-validity check inside `FileHandle::open`
(`src/sys/posix.rs` lines 96-110): given the value returned by
`libc::open`, the source treats `fd <= 0` as success and anything else as
failure. -/
def Posix.FileHandle.openCheck (fd : Int) : Except Unit Int :=
  if fd ≤ 0 then Except.ok fd else Except.error ()

/-- One primitive action of the POSIX backend, as it appears in a trace. -/
inductive PosixAction
  | updateExisting (flag : Int)
  | createAndSetFile
  | createAndSetDir
  | mkAncestors (mode : Nat)
deriving DecidableEq, Repr

/-- Outcomes the operating system would hand back to each POSIX primitive:
`utimensat` (keyed by the symlink flag), the compound
open-plus-`futimens` sequences of `update_new_file` / `update_new_dir`,
and the recursive `DirBuilder` ancestor creation. -/
structure PosixEnv where
  utimensat : Int → IoResult
  updateNewFile : IoResult
  updateNewDir : IoResult
  mkAncestors : IoResult

/-- `update_existing_follow` from `src/sys/posix.rs` lines 47-49 (flag 0). -/
def Posix.update_existing_follow (env : PosixEnv) : IoResult :=
  env.utimensat 0

/-- `update_existing_update` from `src/sys/posix.rs` lines 53-55
(flag `AT_SYMLINK_NOFOLLOW`). -/
def Posix.update_existing_update (env : PosixEnv) : IoResult :=
  env.utimensat AT_SYMLINK_NOFOLLOW

/-- The `utimensat` flag selected by each resolution method. -/
def Posix.flagOf : ResolutionMethod → Int
  | ResolutionMethod.followSymlinks => 0
  | ResolutionMethod.updateSymlinks => AT_SYMLINK_NOFOLLOW

/-- `Touch for TouchOptions<NoCreate, R>` from `src/sys/posix.rs` lines
165-177: one existing-path update, nothing else. -/
def Posix.touchNoCreate (r : ResolutionMethod) (env : PosixEnv) : IoResult × List PosixAction :=
  match r with
  | ResolutionMethod.followSymlinks =>
    (Posix.update_existing_follow env, [PosixAction.updateExisting 0])
  | ResolutionMethod.updateSymlinks =>
    (Posix.update_existing_update env, [PosixAction.updateExisting AT_SYMLINK_NOFOLLOW])

/-- `Touch for TouchOptions<NonRecursive<File>, R>` from `src/sys/posix.rs`
lines 190-199: the NoCreate step, then `.or_else(|_| update_new_file(..))`
— the closure discards the error value, so the fallback runs on every
error. -/
def Posix.touchNonRecFile (r : ResolutionMethod) (env : PosixEnv) : IoResult × List PosixAction :=
  let t := Posix.touchNoCreate r env
  match t.1 with
  | Except.ok u => (Except.ok u, t.2)
  | Except.error _ => (env.updateNewFile, t.2 ++ [PosixAction.createAndSetFile])

/-- `Touch for TouchOptions<NonRecursive<Directory>, R>` from
`src/sys/posix.rs` lines 179-188: the NoCreate step, then
`.or_else(|_| update_new_dir(..))`. -/
def Posix.touchNonRecDir (r : ResolutionMethod) (env : PosixEnv) : IoResult × List PosixAction :=
  let t := Posix.touchNoCreate r env
  match t.1 with
  | Except.ok u => (Except.ok u, t.2)
  | Except.error _ => (env.updateNewDir, t.2 ++ [PosixAction.createAndSetDir])

/-- Dispatch of `TouchOptions<NonRecursive<I>, R>` on the item kind `I`. -/
def Posix.touchNonRec (i : Item) : ResolutionMethod → PosixEnv → IoResult × List PosixAction :=
  match i with
  | Item.file => Posix.touchNonRecFile
  | Item.directory => Posix.touchNonRecDir

/-- The mode bits passed to `DirBuilder::new().recursive(true).mode(0o666)`
in `src/sys/posix.rs` line 208. -/
def Posix.recursive_dir_mode : Nat := 0o666

/-- `Touch for TouchOptions<Recursive<I>, R>` from `src/sys/posix.rs` lines
201-216: when the path has a parent, create all missing ancestors (mode
`0o666`); then `rec_res.and_then(..)` runs the `NonRecursive<I>` impl only
on success. -/
def Posix.touchRecursive (i : Item) (r : ResolutionMethod) (env : PosixEnv)
    (hasParent : Bool) : IoResult × List PosixAction :=
  let recRes : IoResult := if hasParent then env.mkAncestors else Except.ok ()
  let recTrace : List PosixAction :=
    if hasParent then [PosixAction.mkAncestors Posix.recursive_dir_mode] else []
  match recRes with
  | Except.error e => (Except.error e, recTrace)
  | Except.ok _ =>
    let t := Posix.touchNonRec i r env
    (t.1, recTrace ++ t.2)

/-- The `CreateFileW` creation disposition: `OPEN_EXISTING` fails on a
missing path, `OPEN_ALWAYS` creates it. -/
inductive Disp
  | openExisting
  | openAlways
deriving DecidableEq, Repr

/-- One primitive action of the Windows backend, as it appears in a trace;
the `Bool` on `createFileW` records `FILE_FLAG_OPEN_REPARSE_POINT`. -/
inductive WinAction
  | createFileW (disp : Disp) (reparse : Bool)
  | setFileTime
  | createDirectoryW
  | mkAncestors
deriving DecidableEq, Repr

/-- Outcomes the operating system would hand back to each Windows
primitive: `CreateFileW` (keyed by disposition and reparse flag),
`SetFileTime`, the ignored bare `CreateDirectoryW`, and the recursive
`DirBuilder` ancestor creation. -/
structure WinEnv where
  createFileW : Disp → Bool → IoResult
  setFileTime : IoResult
  createDirectoryW : IoResult
  mkAncestors : IoResult

/-- Whether a resolution method adds `FILE_FLAG_OPEN_REPARSE_POINT`. -/
def Windows.reparseOf : ResolutionMethod → Bool
  | ResolutionMethod.followSymlinks => false
  | ResolutionMethod.updateSymlinks => true

/-- `Touch for TouchOptions<NoCreate, R>` from `src/sys/windows.rs` lines
139-152 (both resolution impls, which differ only in the reparse flag):
open with `OPEN_EXISTING`, then `SetFileTime` on the handle. -/
def Windows.touchNoCreate (r : ResolutionMethod) (env : WinEnv) : IoResult × List WinAction :=
  let rp := Windows.reparseOf r
  match env.createFileW Disp.openExisting rp with
  | Except.error e => (Except.error e, [WinAction.createFileW Disp.openExisting rp])
  | Except.ok _ =>
    (env.setFileTime, [WinAction.createFileW Disp.openExisting rp, WinAction.setFileTime])

/-- `Touch for TouchOptions<NonRecursive<Directory>, R>` from
`src/sys/windows.rs` lines 154-163: an unconditional `CreateDirectoryW`
whose result is discarded (`let _ = ..`), followed by the NoCreate step. -/
def Windows.touchNonRecDir (r : ResolutionMethod) (env : WinEnv) : IoResult × List WinAction :=
  let t := Windows.touchNoCreate r env
  (t.1, WinAction.createDirectoryW :: t.2)

/-- `Touch for TouchOptions<NonRecursive<File>, R>` from
`src/sys/windows.rs` lines 165-178 (both resolution impls, which differ
only in the reparse flag): a single `CreateFileW` with `OPEN_ALWAYS`
(open-or-create), then `SetFileTime`. -/
def Windows.touchNonRecFile (r : ResolutionMethod) (env : WinEnv) : IoResult × List WinAction :=
  let rp := Windows.reparseOf r
  match env.createFileW Disp.openAlways rp with
  | Except.error e => (Except.error e, [WinAction.createFileW Disp.openAlways rp])
  | Except.ok _ =>
    (env.setFileTime, [WinAction.createFileW Disp.openAlways rp, WinAction.setFileTime])

/-- `Touch for TouchOptions<Recursive<I>, R>` from `src/sys/windows.rs`
lines 180-192: ancestor creation when a parent exists, then
`rec_res.and_then(|_| TouchOptions::<NoCreate, R>::touch(..))` — note that
the body never uses the item kind `I` and dispatches to the `NoCreate`
impl, not to `NonRecursive<I>`. -/
def Windows.touchRecursive (i : Item) (r : ResolutionMethod) (env : WinEnv)
    (hasParent : Bool) : IoResult × List WinAction :=
  let _ := i
  let recRes : IoResult := if hasParent then env.mkAncestors else Except.ok ()
  let recTrace : List WinAction := if hasParent then [WinAction.mkAncestors] else []
  match recRes with
  | Except.error e => (Except.error e, recTrace)
  | Except.ok _ =>
    let t := Windows.touchNoCreate r env
    (t.1, recTrace ++ t.2)

/-- A POSIX environment in which the existing-path update fails with
`PermissionDenied` while every creation primitive succeeds. -/
def envPD : PosixEnv :=
  { utimensat := fun _ => Except.error ErrorKind.permissionDenied
  , updateNewFile := Except.ok ()
  , updateNewDir := Except.ok ()
  , mkAncestors := Except.ok () }

/-- C1 counterexample: when `utimensat` fails with `PermissionDenied`
(not `NotFound`), the `NonRecursive` impls still run the create-and-set
fallback, and its success masks the permission error instead of returning
it. -/
theorem c1_counterexample :
    envPD.utimensat 0 = Except.error ErrorKind.permissionDenied
    ∧ Posix.touchNonRecFile ResolutionMethod.followSymlinks envPD
        = (Except.ok (), [PosixAction.updateExisting 0, PosixAction.createAndSetFile])
    ∧ Posix.touchNonRecDir ResolutionMethod.updateSymlinks envPD
        = (Except.ok (), [PosixAction.updateExisting 256, PosixAction.createAndSetDir]) :=
  ⟨rfl, rfl, rfl⟩

/-- C1 (amended): under `NonRecursive<File>` / `NonRecursive<Directory>`
on POSIX, the create-and-set fallback runs whenever the existing-path
update fails with ANY error (the `or_else` closure discards the error
kind), and the fallback's own result is what the caller receives; on a
successful update no creation step is attempted. -/
theorem c1_amended (r : ResolutionMethod) (env : PosixEnv) (e : ErrorKind) :
    (env.utimensat (Posix.flagOf r) = Except.error e →
      Posix.touchNonRecFile r env
        = (env.updateNewFile,
           [PosixAction.updateExisting (Posix.flagOf r), PosixAction.createAndSetFile])
      ∧ Posix.touchNonRecDir r env
        = (env.updateNewDir,
           [PosixAction.updateExisting (Posix.flagOf r), PosixAction.createAndSetDir]))
    ∧ (env.utimensat (Posix.flagOf r) = Except.ok () →
      Posix.touchNonRecFile r env = (Except.ok (), [PosixAction.updateExisting (Posix.flagOf r)])
      ∧ Posix.touchNonRecDir r env = (Except.ok (), [PosixAction.updateExisting (Posix.flagOf r)])) := by
  cases r <;>
    exact ⟨fun h => by
        simp [Posix.touchNonRecFile, Posix.touchNonRecDir, Posix.touchNoCreate,
          Posix.update_existing_follow, Posix.update_existing_update, Posix.flagOf,
          AT_SYMLINK_NOFOLLOW] at h ⊢
        simp [h],
      fun h => by
        simp [Posix.touchNonRecFile, Posix.touchNonRecDir, Posix.touchNoCreate,
          Posix.update_existing_follow, Posix.update_existing_update, Posix.flagOf,
          AT_SYMLINK_NOFOLLOW] at h ⊢
        simp [h]⟩

/-- C1 amended witness: the amended theorem applied to the concrete
environment `envPD` at `FollowSymlinks`. -/
theorem c1_amended_witness :
    Posix.touchNonRecFile ResolutionMethod.followSymlinks envPD
      = (Except.ok (), [PosixAction.updateExisting 0, PosixAction.createAndSetFile]) :=
  ((c1_amended ResolutionMethod.followSymlinks envPD ErrorKind.permissionDenied).1 rfl).1

/-- A POSIX environment in which every primitive succeeds. -/
def penvOK : PosixEnv :=
  { utimensat := fun _ => Except.ok ()
  , updateNewFile := Except.ok ()
  , updateNewDir := Except.ok ()
  , mkAncestors := Except.ok () }

/-- A Windows environment in which every primitive succeeds (the path
exists, so the existing-path open succeeds). -/
def wenvOK : WinEnv :=
  { createFileW := fun _ _ => Except.ok ()
  , setFileTime := Except.ok ()
  , createDirectoryW := Except.ok ()
  , mkAncestors := Except.ok () }

/-- C2 counterexample: on Windows the existing-path open would succeed
(the path exists), yet `NonRecursive<Directory>` issues `CreateDirectoryW`
as its unconditional first action, and `NonRecursive<File>` starts with an
`OPEN_ALWAYS` open-or-create rather than an existing-path update. -/
theorem c2_counterexample :
    wenvOK.createFileW Disp.openExisting false = Except.ok ()
    ∧ (Windows.touchNonRecDir ResolutionMethod.followSymlinks wenvOK).2
        = [WinAction.createDirectoryW, WinAction.createFileW Disp.openExisting false,
           WinAction.setFileTime]
    ∧ (Windows.touchNonRecFile ResolutionMethod.followSymlinks wenvOK).2
        = [WinAction.createFileW Disp.openAlways false, WinAction.setFileTime] :=
  ⟨rfl, rfl, rfl⟩

/-- Helper: the NoCreate step on POSIX is exactly one `utimensat` call with
the flag selected by the resolution method. -/
theorem Posix.touchNoCreate_eq (r : ResolutionMethod) (env : PosixEnv) :
    Posix.touchNoCreate r env
      = (env.utimensat (Posix.flagOf r), [PosixAction.updateExisting (Posix.flagOf r)]) := by
  cases r <;> rfl

/-- C2 (amended): on POSIX the existing-path update is always the first
action and creation runs only after it fails; on Windows, however,
`NonRecursive<Directory>` unconditionally issues `CreateDirectoryW` before
the existing-path update, and `NonRecursive<File>` performs a single
`OPEN_ALWAYS` open-or-create as its first action rather than an
existing-path update followed by a fallback. -/
theorem c2_amended (r : ResolutionMethod) (env : PosixEnv) (wenv : WinEnv) :
    (Posix.touchNonRecFile r env).2.head? = some (PosixAction.updateExisting (Posix.flagOf r))
    ∧ (Posix.touchNonRecDir r env).2.head? = some (PosixAction.updateExisting (Posix.flagOf r))
    ∧ (env.utimensat (Posix.flagOf r) = Except.ok () →
        (Posix.touchNonRecFile r env).2 = [PosixAction.updateExisting (Posix.flagOf r)]
        ∧ (Posix.touchNonRecDir r env).2 = [PosixAction.updateExisting (Posix.flagOf r)])
    ∧ (Windows.touchNonRecDir r wenv).2.head? = some WinAction.createDirectoryW
    ∧ (Windows.touchNonRecFile r wenv).2.head?
        = some (WinAction.createFileW Disp.openAlways (Windows.reparseOf r)) := by
  have hf := Posix.touchNoCreate_eq r env
  refine ⟨?_, ?_, fun h => ?_, ?_, ?_⟩
  · rcases hu : env.utimensat (Posix.flagOf r) with e | u <;>
      simp [Posix.touchNonRecFile, hf, hu]
  · rcases hu : env.utimensat (Posix.flagOf r) with e | u <;>
      simp [Posix.touchNonRecDir, hf, hu]
  · exact ⟨by simp [Posix.touchNonRecFile, hf, h], by simp [Posix.touchNonRecDir, hf, h]⟩
  · rcases hw : wenv.createFileW Disp.openExisting (Windows.reparseOf r) with e | u <;>
      simp [Windows.touchNonRecDir, Windows.touchNoCreate, hw]
  · rcases hw : wenv.createFileW Disp.openAlways (Windows.reparseOf r) with e | u <;>
      simp [Windows.touchNonRecFile, hw]

/-- C2 amended witness: the amended theorem applied to the all-ok
environments at `FollowSymlinks`. -/
theorem c2_amended_witness :
    (Posix.touchNonRecFile ResolutionMethod.followSymlinks penvOK).2
      = [PosixAction.updateExisting 0] :=
  ((c2_amended ResolutionMethod.followSymlinks penvOK wenvOK).2.2.1 rfl).1

/-- A Windows environment describing a path whose ancestors exist (or are
created successfully) but whose target is missing: the existing-only open
fails with `NotFound`, while an `OPEN_ALWAYS` open would create the target
and succeed. -/
def wenvMissingTarget : WinEnv :=
  { createFileW := fun disp _ =>
      match disp with
      | Disp.openExisting => Except.error ErrorKind.notFound
      | Disp.openAlways => Except.ok ()
  , setFileTime := Except.ok ()
  , createDirectoryW := Except.ok ()
  , mkAncestors := Except.ok () }

/-- A POSIX environment describing the same situation: the existing-path
update fails with `NotFound` and every creation primitive succeeds. -/
def penvMissingTarget : PosixEnv :=
  { utimensat := fun _ => Except.error ErrorKind.notFound
  , updateNewFile := Except.ok ()
  , updateNewDir := Except.ok ()
  , mkAncestors := Except.ok () }

/-- C3: after successful ancestor creation the Windows `Recursive<File>`
impl dispatches to the `NoCreate` impl (the item kind is never used), so a
still-missing target makes the whole call fail with `NotFound`, whereas
the `NonRecursive<File>` impl it was supposed to run would create the
target and succeed.  The POSIX backend, evaluated at the matching
environment, does create the target, as the claim demands. -/
theorem c3_code_eval :
    wenvMissingTarget.mkAncestors = Except.ok ()
    ∧ Windows.touchRecursive Item.file ResolutionMethod.followSymlinks wenvMissingTarget true
        = (Except.error ErrorKind.notFound,
           [WinAction.mkAncestors, WinAction.createFileW Disp.openExisting false])
    ∧ Windows.touchNonRecFile ResolutionMethod.followSymlinks wenvMissingTarget
        = (Except.ok (), [WinAction.createFileW Disp.openAlways false, WinAction.setFileTime])
    ∧ Posix.touchRecursive Item.file ResolutionMethod.followSymlinks penvMissingTarget true
        = (Except.ok (),
           [PosixAction.mkAncestors 438, PosixAction.updateExisting 0,
            PosixAction.createAndSetFile]) :=
  ⟨rfl, rfl, rfl, rfl⟩

/-- C4: the descriptor-validity check in `FileHandle::open` is inverted —
a successful `open` returning descriptor 3 is reported as an error, while
a failing `open` returning -1 is reported as success.  The claim (and the
spec's stated correct contract) says a non-negative descriptor is
success. -/
theorem c4_code_eval :
    Posix.FileHandle.openCheck 3 = Except.error ()
    ∧ Posix.FileHandle.openCheck (-1) = Except.ok (-1)
    ∧ Posix.FileHandle.openCheck 0 = Except.ok 0 :=
  ⟨rfl, rfl, rfl⟩

/-- C7: an absent timestamp converts, for any builder, to the POSIX
`UTIME_OMIT` sentinel (`tv_sec = 0`, `tv_nsec = UTIME_OMIT`) and to the
Windows all-ones `FILETIME` (`0xFFFFFFFF` in both halves), in whichever of
the two fields (accessed, modified) is absent. -/
theorem c7_omit_sentinels (b : Builder) :
    (b.accessed = Option.none →
      (Posix.FileTimes.from_builder b).1 = { tv_sec := 0, tv_nsec := UTIME_OMIT }
      ∧ (Windows.FileTimes.from_builder b).1
          = Option.some { dwLowDateTime := 0xFFFFFFFF, dwHighDateTime := 0xFFFFFFFF })
    ∧ (b.modified = Option.none →
      (Posix.FileTimes.from_builder b).2 = { tv_sec := 0, tv_nsec := UTIME_OMIT }
      ∧ (Windows.FileTimes.from_builder b).2
          = Option.some { dwLowDateTime := 0xFFFFFFFF, dwHighDateTime := 0xFFFFFFFF }) := by
  constructor <;> intro h <;>
    exact ⟨by simp [Posix.FileTimes.from_builder, Posix.systemtime_into_filetime, h],
           by simp [Windows.FileTimes.from_builder, Windows.systemtime_into_filetime, h]⟩

/-- C7 witness: the sentinel conversion evaluated on the default builder,
whose two timestamps are both absent. -/
theorem c7_omit_sentinels_witness :
    (Posix.FileTimes.from_builder Builder.new).1 = { tv_sec := 0, tv_nsec := UTIME_OMIT }
    ∧ (Windows.FileTimes.from_builder Builder.new).1
        = Option.some { dwLowDateTime := 0xFFFFFFFF, dwHighDateTime := 0xFFFFFFFF } :=
  (c7_omit_sentinels Builder.new).1 rfl

/-- C8 counterexample: the default builder does NOT follow symbolic links
(`follow_symlinks` is `false` in `Builder::new`), contradicting the
claim's third conjunct. -/
theorem c8_counterexample :
    ¬ (Builder.new.accessed = Option.none ∧ Builder.new.modified = Option.none
       ∧ Builder.new.creation_target = CreationTarget.none
       ∧ Builder.new.follow_symlinks = true) := by
  intro h
  exact absurd h.2.2.2 (by decide)

/-- C8 (amended): the default configuration has both timestamps absent and
performs no creation, but it does not follow symbolic links — the default
is `follow_symlinks = false`, i.e. it operates on a symbolic link itself
rather than on its target. -/
theorem c8_amended :
    Builder.new.accessed = Option.none ∧ Builder.new.modified = Option.none
    ∧ Builder.new.creation_target = CreationTarget.none
    ∧ Builder.new.follow_symlinks = false :=
  ⟨rfl, rfl, rfl, rfl⟩

/-- A POSIX environment in which recursive ancestor creation fails with
`PermissionDenied` while the other primitives would succeed. -/
def penvAncFail : PosixEnv :=
  { utimensat := fun _ => Except.ok ()
  , updateNewFile := Except.ok ()
  , updateNewDir := Except.ok ()
  , mkAncestors := Except.error ErrorKind.permissionDenied }

/-- C9: missing ancestors are created with mode `0o666` (438) — read/write
only, WITHOUT the execute bits (`0o666 &&& 0o111 = 0`), contrary to the
claim's "standard read/write/execute permission bits"; the second half of
the claim does hold: when ancestor creation fails, the call returns that
error with no further action attempted. -/
theorem c9_code_eval :
    Posix.recursive_dir_mode = 438
    ∧ Posix.recursive_dir_mode &&& 73 = 0
    ∧ Posix.touchRecursive Item.file ResolutionMethod.followSymlinks penvAncFail true
        = (Except.error ErrorKind.permissionDenied, [PosixAction.mkAncestors 438])
    ∧ Posix.touchRecursive Item.directory ResolutionMethod.updateSymlinks penvAncFail true
        = (Except.error ErrorKind.permissionDenied, [PosixAction.mkAncestors 438]) :=
  ⟨rfl, by decide, rfl, rfl⟩

/-- Helper: for a genuine byte, the `c_char` cast is zero exactly on the
NUL byte. -/
theorem c_char_of_eq_zero_iff (b : Nat) (hb : b < 256) : c_char_of b = 0 ↔ b = 0 := by
  unfold c_char_of
  rw [Nat.mod_eq_of_lt hb]
  by_cases h : b < 128
  · rw [if_pos h]; omega
  · rw [if_neg h]; omega

/-- Helper: the part of the converted C string a syscall reads is the
image of the path up to its first NUL byte. -/
theorem cStringSeen_into_c_string (p : List Nat) (hp : ∀ b ∈ p, b < 256) :
    cStringSeenBySyscall (Posix.into_c_string p)
      = (p.takeWhile (fun b => b != 0)).map c_char_of := by
  induction p with
  | nil => rfl
  | cons a l ih =>
    have ha : a < 256 := hp a (by simp)
    have hl : ∀ b ∈ l, b < 256 := fun b hb => hp b (by simp [hb])
    by_cases h0 : a = 0
    · subst h0
      simp [cStringSeenBySyscall, Posix.into_c_string, List.takeWhile_cons, c_char_of]
    · have hc : c_char_of a ≠ 0 := fun hc => h0 ((c_char_of_eq_zero_iff a ha).mp hc)
      have := ih hl
      simp only [cStringSeenBySyscall, Posix.into_c_string, List.map_cons,
        List.cons_append, List.takeWhile_cons] at this ⊢
      simp [hc, h0, this]

/-- Helper: a list containing a NUL byte strictly shrinks when truncated
at the first NUL. -/
theorem takeWhile_ne_zero_length_lt (p : List Nat) (h : 0 ∈ p) :
    (p.takeWhile (fun b => b != 0)).length < p.length := by
  induction p with
  | nil => cases h
  | cons a l ih =>
    by_cases h0 : a = 0
    · subst h0
      simp [List.takeWhile_cons]
    · rcases List.mem_cons.mp h with h1 | h1
      · exact absurd h1.symm h0
      · have := ih h1
        simp only [List.takeWhile_cons, List.length_cons]
        simp [h0]
        omega

/-- C10: `into_c_string` produces exactly the path's bytes under the
`c_char` cast followed by one trailing 0, with no validation of interior
NUL bytes — so for a path containing a NUL, the C string the receiving
syscall sees is the strict truncation of the path at its first NUL
byte. -/
theorem c10_c_string (p : List Nat) (hp : ∀ b ∈ p, b < 256) :
    Posix.into_c_string p = p.map c_char_of ++ [0]
    ∧ (Posix.into_c_string p).length = p.length + 1
    ∧ (0 ∈ p →
        cStringSeenBySyscall (Posix.into_c_string p)
          = (p.takeWhile (fun b => b != 0)).map c_char_of
        ∧ (p.takeWhile (fun b => b != 0)).length < p.length) :=
  ⟨rfl, by simp [Posix.into_c_string],
   fun h0 => ⟨cStringSeen_into_c_string p hp, takeWhile_ne_zero_length_lt p h0⟩⟩

/-- C10 witness: the theorem evaluated on the byte path `[97, 0, 98]`
(an embedded NUL): the syscall sees only `[97]`. -/
theorem c10_c_string_witness :
    cStringSeenBySyscall (Posix.into_c_string [97, 0, 98])
      = ([97, 0, 98].takeWhile (fun b => b != 0)).map c_char_of
    ∧ ([97, 0, 98].takeWhile (fun b => b != 0)).length < [97, 0, 98].length :=
  (c10_c_string [97, 0, 98] (by decide)).2.2 (by decide)

/-- Helper: shifting a nonnegative duration onto the Windows epoch adds
the fixed offset to the seconds and leaves the subsecond part unchanged. -/
theorem durAdd_epoch (a : Nat) :
    durAdd (a / nsPerSec, a % nsPerSec) (Windows.unix_epoch_secs, 0)
      = (a / nsPerSec + Windows.unix_epoch_secs, a % nsPerSec) := by
  unfold durAdd durToNanos Windows.unix_epoch_secs nsPerSec
  rw [Prod.mk.injEq]
  constructor <;> simp only [] <;> omega

/-- C5: for a present timestamp at or after the Unix epoch whose tick
value fits in 64 bits, the Windows conversion yields a FILETIME whose
64-bit value `dwHighDateTime * 2^32 + dwLowDateTime` equals
`(seconds + 11644473600) * 10^7 + subsec_nanos / 100` (truncating
division); in particular, the Unix epoch itself converts to exactly
`11644473600 * 10^7` ticks. -/
theorem c5_windows_ticks (t : SystemTime) (ht : 0 ≤ t)
    (hfit : (t.toNat / 1000000000 + 11644473600) * 10000000
              + t.toNat % 1000000000 / 100 < 2 ^ 64) :
    (∃ ft : FILETIME,
        Windows.systemtime_into_filetime (Option.some t) = Option.some ft
        ∧ ft.dwHighDateTime * 2 ^ 32 + ft.dwLowDateTime
            = (t.toNat / 1000000000 + 11644473600) * 10000000
              + t.toNat % 1000000000 / 100)
    ∧ (∃ ft0 : FILETIME,
        Windows.systemtime_into_filetime (Option.some 0) = Option.some ft0
        ∧ ft0.dwHighDateTime * 2 ^ 32 + ft0.dwLowDateTime = 11644473600 * 10000000) := by
  constructor
  · have hX := hfit
    set X := (t.toNat / 1000000000 + 11644473600) * 10000000
        + t.toNat % 1000000000 / 100 with hXdef
    refine ⟨{ dwLowDateTime := X % 2 ^ 32, dwHighDateTime := X / 2 ^ 32 % 2 ^ 32 }, ?_, ?_⟩
    · simp only [Windows.systemtime_into_filetime, if_pos ht, durAdd_epoch]
      have hmod : X % 2 ^ 64 = X := Nat.mod_eq_of_lt hX
      simp only [nsPerSec, Windows.unix_epoch_secs, ← hXdef, hmod]
    · simp only []
      have h32 : (2:Nat) ^ 32 = 4294967296 := by norm_num
      have h64 : (2:Nat) ^ 64 = 18446744073709551616 := by norm_num
      rw [h32]
      rw [h64] at hX
      omega
  · exact ⟨{ dwLowDateTime := 116444736000000000 % 2 ^ 32
           , dwHighDateTime := 116444736000000000 / 2 ^ 32 % 2 ^ 32 },
      by decide, by decide⟩

/-- C5 witness: the theorem applied at the Unix epoch itself. -/
theorem c5_windows_ticks_witness :
    ∃ ft : FILETIME,
      Windows.systemtime_into_filetime (Option.some 0) = Option.some ft
      ∧ ft.dwHighDateTime * 2 ^ 32 + ft.dwLowDateTime
          = ((0 : Int).toNat / 1000000000 + 11644473600) * 10000000
            + (0 : Int).toNat % 1000000000 / 100 :=
  (c5_windows_ticks 0 (by norm_num) (by norm_num)).1

/-- Helper: the `as i64` wrap is the identity below `2^63`. -/
theorem wrapI64_eq (n : Nat) (h : n < 2 ^ 63) : wrapI64 n = (n : Int) := by
  unfold wrapI64
  have h64 : n % 2 ^ 64 = n := Nat.mod_eq_of_lt (lt_trans h (by norm_num))
  rw [h64, if_pos h]

/-- C6 counterexample: a time strictly before 1601-01-01 (here 2*10^10
seconds before the Unix epoch) makes the Windows conversion panic — the
`unix_epoch - e.duration()` subtraction underflows — instead of yielding
a defined FILETIME. -/
theorem c6_counterexample :
    Windows.systemtime_into_filetime (Option.some (-20000000000000000000)) = Option.none := by
  decide

/-- C6 (amended): the POSIX conversion is total and encodes a pre-epoch
time as negated seconds with a negated nanosecond offset; the Windows
conversion however is defined exactly for times at or after 1601-01-01
(i.e. at most 11644473600 seconds before the Unix epoch) — a time
strictly before 1601 panics via `Duration` subtraction underflow. -/
theorem c6_amended (t : Int) :
    (t < 0 → (-t).toNat / 1000000000 < 2 ^ 63 →
      Posix.systemtime_into_filetime (Option.some t)
        = { tv_sec := -((((-t).toNat / 1000000000 : Nat)) : Int)
          , tv_nsec := -((((-t).toNat % 1000000000 : Nat)) : Int) })
    ∧ ((Windows.systemtime_into_filetime (Option.some t)).isSome
        ↔ -11644473600000000000 ≤ t) := by
  constructor
  · intro h1 h2
    have hneg : ¬ 0 ≤ t := not_le.mpr h1
    simp only [Posix.systemtime_into_filetime, if_neg hneg, nsPerSec]
    rw [wrapI64_eq _ h2]
  · by_cases h : 0 ≤ t
    · have hle : (-11644473600000000000 : Int) ≤ t := le_trans (by norm_num) h
      simp [Windows.systemtime_into_filetime, if_pos h, hle]
    · have hto : durToNanos ((-t).toNat / nsPerSec, (-t).toNat % nsPerSec) = (-t).toNat := by
        simp only [durToNanos, nsPerSec]
        omega
      have hK : durToNanos (Windows.unix_epoch_secs, 0) = 11644473600000000000 := by
        simp [durToNanos, Windows.unix_epoch_secs, nsPerSec]
      have hlt : t < 0 := not_le.mp h
      simp only [Windows.systemtime_into_filetime, if_neg h, durSub, hto, hK]
      by_cases hle : (-t).toNat ≤ 11644473600000000000
      · simp only [if_pos hle, Option.isSome_some, true_iff]
        omega
      · simp only [if_neg hle, Option.isSome_none, Bool.false_eq_true, false_iff]
        have hgt : (11644473600000000000 : Int) < -t :=
          Int.lt_toNat.mp (Nat.lt_of_not_le hle)
        omega

/-- C6 amended witness: the POSIX conversion evaluated 1.5 seconds before
the Unix epoch gives seconds -1 and nanoseconds -500000000. -/
theorem c6_amended_witness :
    Posix.systemtime_into_filetime (Option.some (-1500000000))
      = { tv_sec := -((((-(-1500000000 : Int)).toNat / 1000000000 : Nat)) : Int)
        , tv_nsec := -((((-(-1500000000 : Int)).toNat % 1000000000 : Nat)) : Int) } :=
  (c6_amended (-1500000000)).1 (by norm_num) (by decide)
